import Mathlib

/-
Verification development for the Asana repair-request webhook pipeline.

The definitions below are a shallow embedding of the Python sources:
  server.py           (webhook receiver: handshake, signature check, event loop)
  repair_workflow.py  (field extraction, classifier, orchestrator; the functions
                       that server.py imports and dispatches to)
  main.py             (the variant field extractor, classifier and checklist
                       builder defined there)
Remote calls (task API, SMTP) are modeled by an explicit environment record
stating which calls succeed, and each function returns the list of remote
mutation calls it attempts, in order.
-/

/-! ## String helpers with Python semantics (structural, kernel-computable) -/

/-- Models Python str.lower (ASCII case folding, as used by the source). -/
def pyLower (s : String) : String := ⟨s.data.map Char.toLower⟩

/-- Models Python str.strip with no arguments: drop leading and trailing whitespace. -/
def pyStrip (s : String) : String :=
  ⟨((s.data.dropWhile Char.isWhitespace).reverse.dropWhile Char.isWhitespace).reverse⟩

/-- Helper: needle is a leading segment of hay. -/
def startsWithL : List Char → List Char → Bool
  | [], _ => true
  | _ :: _, [] => false
  | n :: ns, h :: hs => n == h && startsWithL ns hs

/-- Helper: needle occurs contiguously inside hay. -/
def containsL (hay needle : List Char) : Bool :=
  match hay with
  | [] => startsWithL needle []
  | _ :: rest => startsWithL needle hay || containsL rest needle

/-- Models the Python expression needle in hay on strings. -/
def strContains (hay needle : String) : Bool := containsL hay.data needle.data

/-- Models Python str.split with no arguments: split on whitespace runs, dropping empties. -/
def splitWSGo : List Char → List Char → List String
  | [], acc => [String.mk acc.reverse]
  | c :: rest, acc =>
    if c.isWhitespace then String.mk acc.reverse :: splitWSGo rest []
    else splitWSGo rest (c :: acc)

/-- Models Python str.split with no arguments. -/
def pyWords (s : String) : List String :=
  (splitWSGo s.data []).filter (fun w => w ≠ "")

/-- Models Python " ".join. -/
def joinSpace : List String → String
  | [] => ""
  | [s] => s
  | s :: rest => s ++ " " ++ joinSpace rest

/-- Models Python ", ".join. -/
def joinComma : List String → String
  | [] => ""
  | [s] => s
  | s :: rest => s ++ ", " ++ joinComma rest

/-- Models Python falsiness of an optional string: None and the empty string are falsy. -/
def pyFalsy (o : Option String) : Bool := o.getD "" == ""

/-! ## Data model

A custom field is the JSON object Asana returns: key "name", key "type"
(modeled as ftype), and per-type value keys. The enum_value field models
the name of the selected option when one is selected; enum_values models
the list of selected option names of a multi_enum field; number_value
models the numeric value already rendered as text (absent when the JSON
value is absent or null). A task models the fetched task record; an absent
JSON key is modeled by the empty string or the empty list, which the
source treats identically through dict.get defaults. -/

structure CustomField where
  name : String
  ftype : String
  enum_value : Option String
  text_value : Option String
  number_value : Option String
  enum_values : List String
deriving DecidableEq

structure AsanaTask where
  gid : String
  name : String
  notes : String
  projects : List String
  custom_fields : List CustomField
deriving DecidableEq

/-- Models one entry of the events list of a delivery envelope. -/
structure AsanaEvent where
  action : String
  resource_type : String
  resource_gid : Option String
deriving DecidableEq

/-- Models the default of the REPAIR_PROJECT_ID environment variable. -/
def REPAIR_PROJECT_ID : String := "1209602262926911"

/-! ## Category catalog (REPAIR_CATEGORIES, identical in main.py and repair_workflow.py) -/

structure CategoryInfo where
  emoji : String
  subtypes : List String
deriving DecidableEq

/-- Models the entry REPAIR_CATEGORIES["Other"]. -/
def OTHER_CATEGORY : CategoryInfo := ⟨"🔧", ["Other maintenance issue"]⟩

/-- Models the REPAIR_CATEGORIES dict as a lookup by category name. -/
def REPAIR_CATEGORIES : String → Option CategoryInfo := fun c =>
  if c == "Appliance" then
    some ⟨"🔌", ["Washer not working", "Dryer not working", "Dishwasher not working",
                 "Stove/Oven issues", "Refrigerator problems"]⟩
  else if c == "Electrical" then
    some ⟨"⚡", ["Broken electrical outlet", "Light switch not working",
                "Flickering lights", "Electrical panel issue"]⟩
  else if c == "Plumbing" then
    some ⟨"🚿", ["Leaky faucet", "Clogged drain", "Toilet issues", "Pipe leak"]⟩
  else if c == "HVAC" then
    some ⟨"❄️", ["No heat", "No cooling", "Thermostat issues", "Strange noises"]⟩
  else if c == "Structural" then
    some ⟨"🏠", ["Wall damage", "Floor issues", "Door/window problems", "Ceiling leak"]⟩
  else if c == "Other" then some OTHER_CATEGORY
  else none

/-! ## Field extractors -/

/-- Models repair_workflow.get_task_field_value: exact name match; the first
field whose name equals the requested name decides the result (an enum with
no selected value, or an unrecognized type, yields None there and then). -/
def rw_get_task_field_value_go (field_name : String) : List CustomField → Option String
  | [] => none
  | f :: rest =>
    if f.name == field_name then
      if f.ftype == "enum" && f.enum_value.isSome then f.enum_value
      else if f.ftype == "text" then f.text_value
      else if f.ftype == "number" then f.number_value
      else none
    else rw_get_task_field_value_go field_name rest

/-- Models repair_workflow.get_task_field_value. -/
def rw_get_task_field_value (task : AsanaTask) (field_name : String) : Option String :=
  rw_get_task_field_value_go field_name task.custom_fields

/-- Models the per-field value logic of main.get_task_field_value: a text or
number field always yields a value, an enum yields one only when an option is
selected, a multi_enum only when the selection list is nonempty; any other
type yields nothing, in which case the loop in the source keeps scanning. -/
def main_field_match_value (f : CustomField) : Option String :=
  if f.ftype == "text" then some (pyStrip (f.text_value.getD ""))
  else if f.ftype == "enum" then
    if f.enum_value.isSome then some (pyStrip (f.enum_value.getD "")) else none
  else if f.ftype == "multi_enum" then
    if f.enum_values ≠ [] then some (joinComma (f.enum_values.map pyStrip)) else none
  else if f.ftype == "number" then some (pyStrip (f.number_value.getD ""))
  else none

/-- Models the scanning loop of main.get_task_field_value over the fields,
with the requested name already normalized by lower and strip. -/
def main_get_task_field_value_go (fn : String) : List CustomField → Option String
  | [] => none
  | f :: rest =>
    if pyStrip (pyLower f.name) == fn then
      match main_field_match_value f with
      | some v => some v
      | none => main_get_task_field_value_go fn rest
    else main_get_task_field_value_go fn rest

/-- Models main.get_task_field_value: case-insensitive exact match between the
normalized requested name and each normalized field name; the first match
that yields a value wins. -/
def main_get_task_field_value (task : AsanaTask) (field_name : String) : Option String :=
  main_get_task_field_value_go (pyStrip (pyLower field_name)) task.custom_fields

/-! ## Classifiers -/

/-- Models the repair_keywords list in repair_workflow.is_repair_form_task. -/
def repair_keywords : List String :=
  ["repair", "fix", "broken", "issue", "not working", "problem", "maintenance"]

/-- Models repair_workflow.is_repair_form_task, the classifier server.py
imports: true when the field names contain both a category-like and an
urgency-like token, else true when the lowered name or notes contain a repair
keyword, else false. No project membership is consulted. -/
def rw_is_repair_form_task (task : AsanaTask) : Bool :=
  let has_category := task.custom_fields.any (fun f =>
    strContains (pyLower f.name) "category" || strContains (pyLower f.name) "issue")
  let has_urgency := task.custom_fields.any (fun f =>
    strContains (pyLower f.name) "urgency" || strContains (pyLower f.name) "priority")
  if has_category && has_urgency then true
  else
    repair_keywords.any (fun kw =>
      strContains (pyLower task.name) kw || strContains (pyLower task.notes) kw)

/-- Models main.is_repair_form_task: true exactly when some project gid of the
task equals the configured repair project id; fields are never consulted. -/
def main_is_repair_form_task (repair_project_id : String) (task : AsanaTask) : Bool :=
  task.projects.any (fun gid => gid == repair_project_id)

/-! ## Checklist builder (pure core of main.create_category_subtasks) -/

/-- Models the base_subtasks list after the urgency-specific inserts at
positions 1 and 2 performed when urgency equals Emergency. -/
def base_subtasks (urgency : String) : List String :=
  let base := ["Initial assessment", "Contact tenant to confirm details", "Schedule inspection"]
  if urgency == "Emergency" then
    List.insertIdx 2 "Expedite emergency response" (List.insertIdx 1 "Immediate safety check" base)
  else base

/-- Models REPAIR_CATEGORIES.get(issue_category, empty dict).get("subtypes", empty list)
in main.create_category_subtasks: an unknown category contributes no steps. -/
def category_subtask_names (issue_category : String) : List String :=
  ((REPAIR_CATEGORIES issue_category).map CategoryInfo.subtypes).getD []

/-- Models the all_subtasks list assembled by main.create_category_subtasks;
the source then issues one create-subtask call per name inside a single
try block and returns false if any call raises. -/
def all_subtasks (issue_category urgency : String) : List String :=
  base_subtasks urgency ++ category_subtask_names issue_category ++
    ["Procure necessary resources", "Execute repair",
     "Verify repair completion", "Follow up with tenant"]

/-! ## Detail extraction (repair_workflow.extract_repair_details) -/

/-- Models the details dict built by repair_workflow.extract_repair_details. -/
structure RepairDetails where
  first_name : Option String
  last_name : Option String
  email : Option String
  phone : Option String
  address : Option String
  unit_number : Option String
  urgency_level : Option String
  issue_category : Option String
  specific_issue : Option String
  description : String
deriving DecidableEq

/-- Models one iteration of the field loop in extract_repair_details: an
if/elif chain keyed on substring tests of the lowered field name. The
category and urgency branches overwrite on every match; the remaining
branches only fill a still-falsy slot. -/
def extract_step (d : RepairDetails) (f : CustomField) : RepairDetails :=
  let fn := pyLower f.name
  if strContains fn "category" || strContains fn "issue" then
    if f.ftype == "enum" && f.enum_value.isSome then { d with issue_category := f.enum_value }
    else if f.ftype == "text" then { d with issue_category := f.text_value }
    else d
  else if strContains fn "urgency" || strContains fn "priority" then
    if f.ftype == "enum" && f.enum_value.isSome then { d with urgency_level := f.enum_value }
    else if f.ftype == "text" then { d with urgency_level := f.text_value }
    else d
  else if strContains fn "name" && pyFalsy d.first_name then
    if f.ftype == "text" then
      match pyWords (f.text_value.getD "") with
      | [] => d
      | p :: rest =>
        if rest == [] then { d with first_name := some p }
        else { d with first_name := some p, last_name := some (joinSpace rest) }
    else d
  else if strContains fn "email" && pyFalsy d.email then
    if f.ftype == "text" then { d with email := f.text_value } else d
  else if strContains fn "phone" && pyFalsy d.phone then
    if f.ftype == "text" then { d with phone := f.text_value } else d
  else if strContains fn "address" && pyFalsy d.address then
    if f.ftype == "text" then { d with address := f.text_value } else d
  else if strContains fn "unit" && pyFalsy d.unit_number then
    if f.ftype == "text" then { d with unit_number := f.text_value } else d
  else d

/-- Models the category list scanned by the fallback in extract_repair_details. -/
def fallback_categories : List String :=
  ["Plumbing", "Electrical", "Appliance", "HVAC", "Structural"]

/-- Models repair_workflow.extract_repair_details: fold the field loop over
the custom fields, then apply the fallbacks for category (keyword scan of
name and notes, else Other), urgency (Standard), first name (Tenant) and
address (Property). -/
def extract_repair_details (task : AsanaTask) : RepairDetails :=
  let d0 : RepairDetails :=
    ⟨none, none, none, none, none, none, none, none, none, task.notes⟩
  let d1 := task.custom_fields.foldl extract_step d0
  let d2 :=
    if pyFalsy d1.issue_category then
      match fallback_categories.find? (fun c =>
          strContains (pyLower task.name) (pyLower c) ||
          strContains (pyLower task.notes) (pyLower c)) with
      | some c => { d1 with issue_category := some c }
      | none => { d1 with issue_category := some "Other" }
    else d1
  let d3 := if pyFalsy d2.urgency_level then { d2 with urgency_level := some "Standard" } else d2
  let d4 := if pyFalsy d3.first_name then { d3 with first_name := some "Tenant" } else d3
  if pyFalsy d4.address then { d4 with address := some "Property" } else d4

/-! ## Orchestrator (repair_workflow.process_repair_request and helpers)

Remote mutations are represented as an explicit call trace; the RemoteCall
list collects every remote mutation the code attempts, in order, whether or
not it succeeds. The environment states which remote operations succeed:
stories models the result of listing the stories of the task (error meaning
the listing call raises), renameOk the task rename, subtaskOk the per-name
subtask creation, emailConfigured whether both email credentials are set,
emailSendOk the SMTP transaction, and markerOk the marker comment write. -/

inductive RemoteCall where
  | updateName (gid newName : String)
  | createSubtask (parentGid name : String)
  | sendEmail (subject : String)
  | addStory (gid text : String)
deriving DecidableEq

structure OrchEnv where
  stories : Except Unit (List String)
  renameOk : Bool
  subtaskOk : String → Bool
  emailConfigured : Bool
  emailSendOk : Bool
  markerOk : Bool

/-- Models repair_workflow.create_subtasks: look the category up with the
Other entry as fallback, attempt one creation per subtype (each guarded by
its own handler, so every creation is attempted; the call also carries the
subtasks project id, not modeled), and return whether at least one creation
succeeded. -/
def rw_create_subtasks (env : OrchEnv) (parent_task_gid category : String) :
    Bool × List RemoteCall :=
  let category_info := (REPAIR_CATEGORIES category).getD OTHER_CATEGORY
  let calls := category_info.subtypes.map (fun st =>
    RemoteCall.createSubtask parent_task_gid (category_info.emoji ++ " " ++ st))
  let created := category_info.subtypes.countP (fun st => env.subtaskOk st)
  (decide (created > 0), calls)

/-- Models the subject line built by repair_workflow.send_email_notification. -/
def email_subject (repair_details : RepairDetails) : String :=
  "New Repair Request: " ++ repair_details.issue_category.getD "Maintenance" ++
    " - " ++ repair_details.address.getD "Property"

/-- Models repair_workflow.send_email_notification: skip (returning false,
with no send attempted) when the credentials are incomplete; otherwise
attempt the send and return whether the SMTP transaction succeeded (a
failure is caught inside the function). -/
def rw_send_email_notification (env : OrchEnv) (repair_details : RepairDetails)
    (task_gid : String) : Bool × List RemoteCall :=
  if !env.emailConfigured then (false, [])
  else (env.emailSendOk, [RemoteCall.sendEmail (email_subject repair_details)])

/-- Models the marker comment text written by process_repair_request. -/
def marker_text (subtask_result email_result : Bool) : String :=
  "Repair request processed by system:\n" ++ "✅ Task formatted\n" ++
  (if subtask_result then "✅" else "❌") ++ " Category-specific subtasks created\n" ++
  (if email_result then "✅" else "❌") ++ " Notification email sent"

/-- Models the error comment text the outer handler attempts to write; the
source appends the exception message, which is not modeled. -/
def error_note_text : String := "⚠️ Error processing repair request: "

/-- Models repair_workflow.process_repair_request, the orchestrator server.py
dispatches to. Steps: scan existing stories and return true immediately when
one contains the marker phrase; extract the details; rename the task (a
raising rename reaches the outer handler, which attempts an error comment
and returns false); create the subtasks; send the email; write the marker
comment (a raising write likewise falls to the outer handler); return true.
The returned boolean ignores the per-step subtask and email results, which
are only recorded inside the marker text. -/
def rw_process_repair_request (env : OrchEnv) (task : AsanaTask) :
    Bool × List RemoteCall :=
  let task_gid := task.gid
  match env.stories with
  | .error _ => (false, [RemoteCall.addStory task_gid error_note_text])
  | .ok stories =>
    if stories.any (fun s => strContains s "Repair request processed") then (true, [])
    else
      let repair_details := extract_repair_details task
      let category := repair_details.issue_category.getD "Other"
      let category_info := (REPAIR_CATEGORIES category).getD OTHER_CATEGORY
      let updated_name := category_info.emoji ++ " " ++
        repair_details.issue_category.getD "Repair" ++ " - " ++
        repair_details.address.getD "Property"
      let renameCall := RemoteCall.updateName task_gid updated_name
      if !env.renameOk then
        (false, [renameCall, RemoteCall.addStory task_gid error_note_text])
      else
        let sub := rw_create_subtasks env task_gid category
        let email := rw_send_email_notification env repair_details task_gid
        let markerCall := RemoteCall.addStory task_gid (marker_text sub.1 email.1)
        if env.markerOk then
          (true, renameCall :: (sub.2 ++ email.2 ++ [markerCall]))
        else
          (false, renameCall :: (sub.2 ++ email.2 ++
            [markerCall, RemoteCall.addStory task_gid error_note_text]))

/-! ## Webhook receiver (server.py receive_webhook)

The request record models the pieces of the Flask request the handler
reads: the method, the two headers, the raw body (fed to the HMAC), and the
parsed events list, where an error models a body whose JSON parse or events
extraction raises. The HMAC-SHA256 hex digest is an abstract parameter
hmacHex taking the secret and the raw body; fetchTask models
client.tasks.find_by_id, where an error models a raising call. The result
records the response, the secret stored after the request, and the gids of
the tasks passed to process_repair_request (the orchestrator invocations;
their boolean results are ignored by the handler and the orchestrator never
raises). -/

structure HttpRequest where
  method : String
  hookSecretHeader : Option String
  hookSignatureHeader : Option String
  rawBody : String
  parsedEvents : Except Unit (List AsanaEvent)

structure WebhookResponse where
  status : Nat
  hookSecretEcho : Option String
deriving DecidableEq

structure WebhookResult where
  response : WebhookResponse
  secretAfter : Option String
  processedGids : List String
deriving DecidableEq

/-- Models the event loop of receive_webhook: for each added-task event with
a truthy gid, fetch the task (a raising fetch aborts the whole loop with a
500, because the single try block wraps the loop); classify with the
imported repair_workflow.is_repair_form_task; when positive, invoke the
orchestrator. Returns the status and the gids dispatched to the
orchestrator. -/
def webhook_process_events (fetchTask : String → Except Unit AsanaTask) :
    List AsanaEvent → Nat × List String
  | [] => (200, [])
  | e :: rest =>
    if e.action == "added" && e.resource_type == "task" then
      match e.resource_gid with
      | none => webhook_process_events fetchTask rest
      | some g =>
        if g == "" then webhook_process_events fetchTask rest
        else
          match fetchTask g with
          | .error _ => (500, [])
          | .ok task =>
            let tail := webhook_process_events fetchTask rest
            if rw_is_repair_form_task task then (tail.1, g :: tail.2) else tail
    else webhook_process_events fetchTask rest

/-- Models server.py receive_webhook. Order of checks: a request carrying the
X-Hook-Secret header is a handshake regardless of method and body (store the
secret, echo it, 200); otherwise a POST runs the signature check only when
the X-Hook-Signature header is present (401 when no nonempty secret is
stored or when the digest differs), then parses the body (500 on a raising
parse) and runs the event loop; any other request gets 405. -/
def receive_webhook (hmacHex : String → String → String)
    (fetchTask : String → Except Unit AsanaTask)
    (storedSecret : Option String) (req : HttpRequest) : WebhookResult :=
  match req.hookSecretHeader with
  | some secret =>
    { response := { status := 200, hookSecretEcho := some secret },
      secretAfter := some secret, processedGids := [] }
  | none =>
    if req.method == "POST" then
      let sigRejected :=
        match req.hookSignatureHeader with
        | none => false
        | some sig =>
          let stored := storedSecret.getD ""
          if stored == "" then true
          else !(sig == hmacHex stored req.rawBody)
      if sigRejected then
        { response := { status := 401, hookSecretEcho := none },
          secretAfter := storedSecret, processedGids := [] }
      else
        match req.parsedEvents with
        | .error _ =>
          { response := { status := 500, hookSecretEcho := none },
            secretAfter := storedSecret, processedGids := [] }
        | .ok events =>
          let r := webhook_process_events fetchTask events
          { response := { status := r.1, hookSecretEcho := none },
            secretAfter := storedSecret, processedGids := r.2 }
    else
      { response := { status := 405, hookSecretEcho := none },
        secretAfter := storedSecret, processedGids := [] }

/-! ## Concrete fixtures used by witnesses and counterexamples -/

/-- Fixture: a form task in the repair project with the two form fields. -/
def demoProcessTask : AsanaTask :=
  { gid := "T1", name := "New Repair Request", notes := "leak",
    projects := ["1209602262926911"],
    custom_fields :=
      [⟨"Issue Category", "enum", some "Plumbing", none, none, []⟩,
       ⟨"Urgency Level", "enum", some "Emergency", none, none, []⟩] }

/-- Fixture: a second qualifying task (by the keyword fallback). -/
def demoTask2 : AsanaTask :=
  { gid := "T2", name := "fix sink", notes := "",
    projects := ["1209602262926911"], custom_fields := [] }

/-- Fixture: a task with one enum field named Urgency Level set to Emergency. -/
def demoUrgencyTask : AsanaTask :=
  { gid := "T3", name := "", notes := "", projects := [],
    custom_fields := [⟨"Urgency Level", "enum", some "Emergency", none, none, []⟩] }

/-- Fixture: a task with no custom fields. -/
def demoNoFieldTask : AsanaTask :=
  { gid := "T4", name := "", notes := "", projects := [], custom_fields := [] }

/-- Fixture: two fields whose normalized names coincide; the first wins. -/
def demoDupTask : AsanaTask :=
  { gid := "T5", name := "", notes := "", projects := [],
    custom_fields :=
      [⟨"Urgency Level", "enum", some "High", none, none, []⟩,
       ⟨"urgency level", "enum", some "Low", none, none, []⟩] }

/-- Fixture: a task outside the configured project but carrying both form fields. -/
def demoOutsideTask : AsanaTask :=
  { gid := "T9", name := "Quarterly budget", notes := "",
    projects := ["999"],
    custom_fields :=
      [⟨"Issue Category", "enum", some "Plumbing", none, none, []⟩,
       ⟨"Urgency Level", "enum", some "Standard", none, none, []⟩] }

/-- Fixture: every remote operation succeeds. -/
def envAllOk : OrchEnv :=
  ⟨Except.ok [], true, fun _ => true, true, true, true⟩

/-- Fixture: email credentials are incomplete, so the notification step fails. -/
def envEmailFail : OrchEnv :=
  ⟨Except.ok [], true, fun _ => true, false, true, true⟩

/-- Fixture: the task rename raises; everything else would succeed. -/
def envRenameFail : OrchEnv :=
  ⟨Except.ok [], false, fun _ => true, true, true, true⟩

/-- Fixture: the task already carries the success marker from a prior run. -/
def c3Env : OrchEnv :=
  ⟨Except.ok [marker_text true true], true, fun _ => true, true, true, true⟩

/-- Fixture: a concrete stand-in for the HMAC-SHA256 hex digest. -/
def demoHmac : String → String → String := fun k m => k ++ "|" ++ m

/-- Fixture: the task API knows T1 and raises for every other gid. -/
def c1FetchTask : String → Except Unit AsanaTask := fun g =>
  if g == "T1" then Except.ok demoProcessTask else Except.error ()

/-- Fixture: an armed-state POST delivery with no signature header. -/
def c1Req : HttpRequest :=
  { method := "POST", hookSecretHeader := none, hookSignatureHeader := none,
    rawBody := "body", parsedEvents := Except.ok [⟨"added", "task", some "T1"⟩] }

/-- Fixture: a POST delivery carrying a wrong signature. -/
def c1BadSigReq : HttpRequest :=
  { method := "POST", hookSecretHeader := none, hookSignatureHeader := some "bad",
    rawBody := "body", parsedEvents := Except.ok [] }

/-- Fixture: the task API raises for T1 but would return demoTask2 for T2. -/
def c2FetchTask : String → Except Unit AsanaTask := fun g =>
  if g == "T2" then Except.ok demoTask2 else Except.error ()

/-- Fixture: an unsigned POST delivery carrying two added-task events. -/
def c2Req : HttpRequest :=
  { method := "POST", hookSecretHeader := none, hookSignatureHeader := none,
    rawBody := "",
    parsedEvents := Except.ok [⟨"added", "task", some "T1"⟩, ⟨"added", "task", some "T2"⟩] }

/-! ## Claim theorems -/

/-- Lemma for claim C4: when no normalized field name equals the normalized
requested name, the scanning loop of main.get_task_field_value yields none. -/
theorem main_get_go_nomatch (fn : String) (fs : List CustomField)
    (h : ∀ f ∈ fs, pyStrip (pyLower f.name) ≠ fn) :
    main_get_task_field_value_go fn fs = none := by
  induction fs with
  | nil => rfl
  | cons f rest ih =>
    unfold main_get_task_field_value_go
    have hf : (pyStrip (pyLower f.name) == fn) = false := by
      simp [h f (List.mem_cons_self f rest)]
    rw [hf]
    exact ih (fun x hx => h x (List.mem_cons_of_mem f hx))

/-- Claim C8: every request carrying an X-Hook-Secret header, whatever its
method, body or signature header, stores the header value verbatim as the
current secret (overwriting any previous value) and gets a 200 response
echoing the same value in the X-Hook-Secret response header, with no event
processed. -/
theorem c8_handshake_stores_and_echoes
    (hmacHex : String → String → String)
    (fetchTask : String → Except Unit AsanaTask)
    (storedSecret : Option String) (req : HttpRequest) (s : String)
    (h : req.hookSecretHeader = some s) :
    receive_webhook hmacHex fetchTask storedSecret req =
      { response := { status := 200, hookSecretEcho := some s },
        secretAfter := some s, processedGids := [] } := by
  simp only [receive_webhook, h]

/-- Witness for claim C8 at a concrete armed state and a GET handshake. -/
theorem c8_handshake_witness :
    receive_webhook demoHmac c1FetchTask (some "old")
      { method := "GET", hookSecretHeader := some "S", hookSignatureHeader := none,
        rawBody := "", parsedEvents := Except.ok [] } =
      { response := { status := 200, hookSecretEcho := some "S" },
        secretAfter := some "S", processedGids := [] } :=
  c8_handshake_stores_and_echoes demoHmac c1FetchTask (some "old") _ "S" rfl

/-- Claim C10: a POST delivery carrying an X-Hook-Signature header while no
secret was ever stored is rejected with 401, the secret stays absent, and no
event is processed. -/
theorem c10_unarmed_signed_delivery_rejected
    (hmacHex : String → String → String)
    (fetchTask : String → Except Unit AsanaTask)
    (req : HttpRequest) (sig : String)
    (hNoHs : req.hookSecretHeader = none)
    (hPost : req.method = "POST")
    (hSig : req.hookSignatureHeader = some sig) :
    receive_webhook hmacHex fetchTask none req =
      { response := { status := 401, hookSecretEcho := none },
        secretAfter := none, processedGids := [] } := by
  simp [receive_webhook, hNoHs, hPost, hSig]

/-- Witness for claim C10 at a concrete signed request. -/
theorem c10_unarmed_witness :
    receive_webhook demoHmac c1FetchTask none c1BadSigReq =
      { response := { status := 401, hookSecretEcho := none },
        secretAfter := none, processedGids := [] } :=
  c10_unarmed_signed_delivery_rejected demoHmac c1FetchTask c1BadSigReq "bad" rfl rfl rfl

/-- Counterexample to claim C1: while Armed (secret "sekret" stored), a POST
delivery without the handshake header and without any X-Hook-Signature
header is accepted: the response is 200 and the orchestrator is invoked on
T1, so acceptance does not require carrying a matching signature. -/
theorem c1_counterexample :
    receive_webhook demoHmac c1FetchTask (some "sekret") c1Req =
      { response := { status := 200, hookSecretEcho := none },
        secretAfter := some "sekret", processedGids := ["T1"] } := by decide

/-- Claim C1 as amended: while Armed, a POST without the handshake header
that does carry an X-Hook-Signature header is accepted only if it equals
hex(HMAC-SHA256(secret, raw body)); on a mismatch the response is 401 and no
event processing occurs; a POST without the signature header is accepted
unauthenticated even while Armed. -/
theorem c1_armed_mismatch_rejected
    (hmacHex : String → String → String)
    (fetchTask : String → Except Unit AsanaTask)
    (storedSecret : Option String) (req : HttpRequest) (sig k : String)
    (hArmed : storedSecret = some k) (hk : k ≠ "")
    (hNoHs : req.hookSecretHeader = none)
    (hPost : req.method = "POST")
    (hSig : req.hookSignatureHeader = some sig)
    (hMismatch : sig ≠ hmacHex k req.rawBody) :
    receive_webhook hmacHex fetchTask storedSecret req =
      { response := { status := 401, hookSecretEcho := none },
        secretAfter := storedSecret, processedGids := [] } := by
  simp [receive_webhook, hArmed, hNoHs, hPost, hSig, hk, hMismatch]

/-- Witness for amended claim C1 at a concrete wrong signature. -/
theorem c1_armed_mismatch_witness :
    receive_webhook demoHmac c1FetchTask (some "sekret") c1BadSigReq =
      { response := { status := 401, hookSecretEcho := none },
        secretAfter := some "sekret", processedGids := [] } :=
  c1_armed_mismatch_rejected demoHmac c1FetchTask (some "sekret") c1BadSigReq
    "bad" "sekret" rfl (by decide) rfl rfl rfl (by decide)

/-- Counterexample to claim C2: a parsed two-event envelope where the task
fetch for the first event raises yields a 500 response and leaves the second
event unattempted (no orchestrator invocation at all), although the second
event would have fetched successfully and classified positive. -/
theorem c2_counterexample :
    receive_webhook demoHmac c2FetchTask none c2Req =
      { response := { status := 500, hookSecretEcho := none },
        secretAfter := none, processedGids := [] } ∧
    c2FetchTask "T2" = Except.ok demoTask2 ∧
    rw_is_repair_form_task demoTask2 = true := by
  refine ⟨by decide, rfl, by decide⟩

/-- Claim C2 as amended: the events of a parsed envelope are attempted in
order inside a single exception scope, so a raising task fetch aborts the
remaining events with a 500 response; failures inside the orchestrator are
caught there and do not abort siblings, and when no fetch raises, every
event is attempted and the response is 200 regardless of individual
orchestrator outcomes. -/
theorem c2_no_fetch_error_gives_200
    (fetchTask : String → Except Unit AsanaTask) (events : List AsanaEvent)
    (hOk : ∀ e ∈ events, e.action = "added" → e.resource_type = "task" →
      ∀ g, e.resource_gid = some g → g ≠ "" → ∃ t, fetchTask g = Except.ok t) :
    (webhook_process_events fetchTask events).1 = 200 := by
  induction events with
  | nil => rfl
  | cons e rest ih =>
    have hrest := fun x hx => hOk x (List.mem_cons_of_mem e hx)
    unfold webhook_process_events
    split
    · rename_i hguard
      rw [Bool.and_eq_true, beq_iff_eq, beq_iff_eq] at hguard
      split
      · exact ih hrest
      · rename_i g hg
        split
        · exact ih hrest
        · rename_i hge
          have hne : g ≠ "" := by
            intro hcon
            subst hcon
            exact hge rfl
          obtain ⟨t, ht⟩ :=
            hOk e (List.mem_cons_self e rest) hguard.1 hguard.2 g hg hne
          rw [ht]
          have htail := ih hrest
          cases hc : rw_is_repair_form_task t <;> simp [hc, htail]
    · exact ih hrest

/-- Witness for amended claim C2 at a concrete one-event envelope whose fetch
succeeds. -/
theorem c2_no_fetch_error_witness :
    (webhook_process_events c1FetchTask [⟨"added", "task", some "T1"⟩]).1 = 200 :=
  c2_no_fetch_error_gives_200 c1FetchTask _ (by
    intro e he ha hr g hg hne
    simp only [List.mem_singleton] at he
    subst he
    simp only at hg
    cases hg
    exact ⟨demoProcessTask, rfl⟩)

/-- Claim C3: when some existing story of the task contains the marker phrase
(in particular the success marker written by a completed run, which does
contain it, as the second conjunct states), the orchestrator returns the
skipped outcome immediately and attempts zero remote calls. -/
theorem c3_marker_skips_all_side_effects
    (env : OrchEnv) (task : AsanaTask) (stories : List String)
    (hStories : env.stories = Except.ok stories)
    (hMarker : stories.any (fun s => strContains s "Repair request processed") = true) :
    rw_process_repair_request env task = (true, []) ∧
    strContains (marker_text true true) "Repair request processed" = true := by
  constructor
  · simp [rw_process_repair_request, hStories, hMarker]
  · decide

/-- Witness for claim C3: a second run over a task already carrying the
success marker skips with no calls. -/
theorem c3_marker_skips_witness :
    rw_process_repair_request c3Env demoProcessTask = (true, []) ∧
    strContains (marker_text true true) "Repair request processed" = true :=
  c3_marker_skips_all_side_effects c3Env demoProcessTask [marker_text true true]
    rfl (by decide)

/-- Counterexample to claim C4: the field is named Urgency Level and its enum
value is Emergency, yet extraction with the logical name urgency returns
none in both implementations, because matching is by name equality, not by
substring. -/
theorem c4_counterexample :
    main_get_task_field_value demoUrgencyTask "urgency" = none ∧
    rw_get_task_field_value demoUrgencyTask "urgency" = none := by
  refine ⟨by decide, by decide⟩

/-- Claim C4 as amended: main.get_task_field_value matches by
case-insensitive equality of the trimmed field name (not substring); when no
field name matches this way the result is none; the exact name (in any
casing and padding) yields the enum value; the first matching field wins;
repair_workflow.get_task_field_value requires the exact name. -/
theorem c4_exact_match_extraction
    (task : AsanaTask) (fn : String)
    (hNoMatch : ∀ f ∈ task.custom_fields,
      pyStrip (pyLower f.name) ≠ pyStrip (pyLower fn)) :
    main_get_task_field_value task fn = none ∧
    main_get_task_field_value demoUrgencyTask "Urgency Level" = some "Emergency" ∧
    main_get_task_field_value demoUrgencyTask "  URGENCY level " = some "Emergency" ∧
    main_get_task_field_value demoDupTask "Urgency Level" = some "High" ∧
    rw_get_task_field_value demoUrgencyTask "Urgency Level" = some "Emergency" := by
  refine ⟨main_get_go_nomatch _ _ hNoMatch, by decide, by decide, by decide, by decide⟩

/-- Witness for amended claim C4: a task with no custom fields yields none. -/
theorem c4_exact_match_witness :
    main_get_task_field_value demoNoFieldTask "urgency" = none :=
  (c4_exact_match_extraction demoNoFieldTask "urgency" (by intro f hf; cases hf)).1

/-- Counterexample to claim C5: a task whose projects do not contain the
configured repair project gid is nevertheless classified positive by
repair_workflow.is_repair_form_task, the classifier server.py imports and
uses, because that classifier never consults project membership. -/
theorem c5_counterexample :
    (REPAIR_PROJECT_ID ∈ demoOutsideTask.projects → False) ∧
    rw_is_repair_form_task demoOutsideTask = true := by
  refine ⟨by decide, by decide⟩

/-- Claim C5 as amended: main.is_repair_form_task checks only project
membership, so a task whose projects do not contain the configured gid is
classified false there regardless of fields, name or notes; the classifier
used by server.py (repair_workflow.is_repair_form_task) performs no project
check at all: its verdict depends only on the custom fields, name and notes. -/
theorem c5_project_gate_split
    (pid : String) (task : AsanaTask) (hOut : pid ∉ task.projects) :
    main_is_repair_form_task pid task = false ∧
    ∀ t1 t2 : AsanaTask, t1.custom_fields = t2.custom_fields → t1.name = t2.name →
      t1.notes = t2.notes → rw_is_repair_form_task t1 = rw_is_repair_form_task t2 := by
  constructor
  · rw [main_is_repair_form_task, List.any_eq_false]
    intro g hg
    simp only [beq_iff_eq]
    intro hcon
    subst hcon
    exact hOut hg
  · intro t1 t2 h1 h2 h3
    simp only [rw_is_repair_form_task, h1, h2, h3]

/-- Witness for amended claim C5 at the concrete out-of-project task. -/
theorem c5_project_gate_witness :
    main_is_repair_form_task REPAIR_PROJECT_ID demoOutsideTask = false :=
  (c5_project_gate_split REPAIR_PROJECT_ID demoOutsideTask (by decide)).1

/-- Counterexample to claim C6: for the unknown category Gardening the
checklist built by main.create_category_subtasks is base plus suffix with no
category-specific steps at all, and in particular does not contain the
single step of the Other entry, so the unknown category does not fall back
to the Other entry there. -/
theorem c6_counterexample :
    all_subtasks "Gardening" "Standard" =
      ["Initial assessment", "Contact tenant to confirm details", "Schedule inspection",
       "Procure necessary resources", "Execute repair",
       "Verify repair completion", "Follow up with tenant"] ∧
    ("Other maintenance issue" ∈ all_subtasks "Gardening" "Standard" → False) := by
  refine ⟨by decide, by decide⟩

/-- Claim C6 as amended: the checklist equals the base steps (assessment,
tenant contact, scheduling), with the immediate-safety-check and escalation
steps inserted after the first base step when urgency is Emergency, then the
category-specific steps, then the fixed suffix (procurement, execution,
verification, tenant follow-up); an unknown category contributes an empty
category-specific segment (the Other fallback exists only in
repair_workflow.create_subtasks, which builds only emoji-prefixed category
subtype subtasks). -/
theorem c6_checklist_structure (cat urg : String) (hUrg : urg ≠ "Emergency") :
    all_subtasks cat urg =
      ["Initial assessment", "Contact tenant to confirm details", "Schedule inspection"]
        ++ category_subtask_names cat
        ++ ["Procure necessary resources", "Execute repair",
            "Verify repair completion", "Follow up with tenant"] ∧
    all_subtasks cat "Emergency" =
      ["Initial assessment", "Immediate safety check", "Expedite emergency response",
       "Contact tenant to confirm details", "Schedule inspection"]
        ++ category_subtask_names cat
        ++ ["Procure necessary resources", "Execute repair",
            "Verify repair completion", "Follow up with tenant"] ∧
    category_subtask_names "Plumbing" =
      ["Leaky faucet", "Clogged drain", "Toilet issues", "Pipe leak"] ∧
    category_subtask_names "Gardening" = [] ∧
    (rw_create_subtasks envAllOk "T1" "Gardening").2 =
      [RemoteCall.createSubtask "T1" "🔧 Other maintenance issue"] := by
  refine ⟨?_, rfl, by decide, by decide, by decide⟩
  unfold all_subtasks base_subtasks
  rw [if_neg]
  simp [hUrg]

/-- Witness for amended claim C6 at the Plumbing category with Standard urgency. -/
theorem c6_checklist_witness :
    all_subtasks "Plumbing" "Standard" =
      ["Initial assessment", "Contact tenant to confirm details", "Schedule inspection"]
        ++ category_subtask_names "Plumbing"
        ++ ["Procure necessary resources", "Execute repair",
            "Verify repair completion", "Follow up with tenant"] :=
  (c6_checklist_structure "Plumbing" "Standard" (by decide)).1

/-- Counterexample to claim C7: a run in which the notification step failed
(email credentials incomplete, so send_email_notification returns false)
still makes process return the same outcome, true, as the run in which both
steps succeeded, so there is no distinct partially-failed outcome and the
result is not succeeded-exactly-when-both-steps-succeeded. -/
theorem c7_counterexample :
    (rw_process_repair_request envAllOk demoProcessTask).1 = true ∧
    (rw_process_repair_request envEmailFail demoProcessTask).1 = true ∧
    (rw_send_email_notification envEmailFail
      (extract_repair_details demoProcessTask) "T1").1 = false := by
  refine ⟨by decide, by decide, by decide⟩

/-- Claim C7 as amended: the return value of process is a boolean, true both
for the skip path and whenever the rename and the marker write go through,
regardless of the subtask and notification step outcomes (which are recorded
only inside the marker text), and false exactly when the story listing, the
rename or the marker write raises. -/
theorem c7_result_ignores_step_outcomes (env : OrchEnv) (task : AsanaTask) :
    (rw_process_repair_request env task).1 =
      (match env.stories with
       | Except.error _ => false
       | Except.ok stories =>
         stories.any (fun s => strContains s "Repair request processed") ||
           (env.renameOk && env.markerOk)) := by
  rcases henv : env.stories with u | stories
  · simp [rw_process_repair_request, henv]
  · simp only [rw_process_repair_request, henv]
    cases hany : stories.any (fun s => strContains s "Repair request processed") with
    | true => simp [hany]
    | false =>
      cases hr : env.renameOk with
      | false => simp [hany, hr]
      | true =>
        cases hk : env.markerOk with
        | false => simp [hany, hr, hk]
        | true => simp [hany, hr, hk]

/-- Counterexample to claim C9: when the rename call raises, the outer
handler takes over: process returns false after attempting only the rename
and the error note, so no subtask creation, no email send and no marker
append run at all. The rename is not best-effort. -/
theorem c9_counterexample :
    rw_process_repair_request envRenameFail demoProcessTask =
      (false, [RemoteCall.updateName "T1" "🚿 Plumbing - Property",
               RemoteCall.addStory "T1" error_note_text]) := by decide

/-- Claim C9 as amended: a failing rename aborts the remaining orchestration
steps: the run returns false having attempted exactly the rename and the
error-note comment; only subtask creation and email send failures are
contained per step. -/
theorem c9_rename_failure_aborts
    (env : OrchEnv) (task : AsanaTask) (stories : List String)
    (hStories : env.stories = Except.ok stories)
    (hNoMarker : stories.any (fun s => strContains s "Repair request processed") = false)
    (hRename : env.renameOk = false) :
    ∃ nm, rw_process_repair_request env task =
      (false, [RemoteCall.updateName task.gid nm,
               RemoteCall.addStory task.gid error_note_text]) := by
  refine ⟨((REPAIR_CATEGORIES ((extract_repair_details task).issue_category.getD "Other")).getD
      OTHER_CATEGORY).emoji ++ " " ++ (extract_repair_details task).issue_category.getD "Repair"
      ++ " - " ++ (extract_repair_details task).address.getD "Property", ?_⟩
  simp [rw_process_repair_request, hStories, hNoMarker, hRename]

/-- Witness for amended claim C9 at the concrete rename-failure environment. -/
theorem c9_rename_failure_witness :
    ∃ nm, rw_process_repair_request envRenameFail demoProcessTask =
      (false, [RemoteCall.updateName "T1" nm,
               RemoteCall.addStory "T1" error_note_text]) :=
  c9_rename_failure_aborts envRenameFail demoProcessTask [] rfl rfl rfl
